import Mathlib

/-!
Shallow embedding of `src/main.py` (Postgres MCP server) and proofs about it.

Modelling conventions:
* Python values that can appear in a fetched row or a response document are
  the inductive `PyVal`.  `cursor.fetchall()` returns a list of *tuples*, so
  tuples (`vTuple`) are distinguished from lists (`vList`): `isinstance(o, list)`
  is false for a tuple.  Dict keys are modelled as strings (the documents the
  program builds only use string keys).
* Python floats are modelled as exact rationals; every float value appearing
  in the claims (e.g. 12.5) is exactly representable in binary64, so the
  binary rounding of `float()` is not modelled.  A `Decimal` is modelled by
  its coefficient and exponent (Decimal("12.50") has coefficient 1250 and
  exponent -2), and `float(Decimal(...))` by the exact rational value.
* A `datetime`/`date`/`time` is naive; `isoformat()` is rendered from its
  fields exactly as CPython does for naive values.  A `UUID` is carried as its
  canonical text, so `str(u)` is the identity on the carried text.
* psycopg2 exceptions are `DBExn`; `OperationalError`, `ProgrammingError` and
  the remaining `DatabaseError` subclasses are separate constructors, and
  `InterfaceError` (not a `DatabaseError`) is its own constructor.
* `json.dumps` either succeeds on a JSON-encodable document or raises
  `TypeError`; it is modelled by `json_dumps`, which returns the document
  itself on success (serialisation is injective, so claims about envelope
  shapes are stated on the document).
* Each operation takes the outcomes of its backend interactions (connection
  attempt, execute+fetchall of each statement) as explicit arguments and
  returns `Except PyExn PyVal`: `.ok doc` is the JSON text of `doc`,
  `.error e` is an exception propagating uncaught to the caller.
  `query_database` additionally returns the list of backend effects it
  performed, to state that rejection happens before any backend interaction.
-/

/-- Fields of a naive Python `datetime`. -/
structure PyDatetime where
  year : Nat
  month : Nat
  day : Nat
  hour : Nat
  minute : Nat
  second : Nat
  microsecond : Nat
deriving DecidableEq, Repr

/-- Fields of a Python `date`. -/
structure PyDate where
  year : Nat
  month : Nat
  day : Nat
deriving DecidableEq, Repr

/-- Fields of a naive Python `time`. -/
structure PyTime where
  hour : Nat
  minute : Nat
  second : Nat
  microsecond : Nat
deriving DecidableEq, Repr

/-- Zero-pad a numeral to two digits, as in CPython's isoformat. -/
def pad2 (n : Nat) : String :=
  if n < 10 then "0" ++ toString n else toString n

/-- Zero-pad a year to four digits. -/
def pad4 (n : Nat) : String :=
  if n < 10 then "000" ++ toString n
  else if n < 100 then "00" ++ toString n
  else if n < 1000 then "0" ++ toString n
  else toString n

/-- Zero-pad a microsecond count to six digits. -/
def pad6 (n : Nat) : String :=
  if n < 10 then "00000" ++ toString n
  else if n < 100 then "0000" ++ toString n
  else if n < 1000 then "000" ++ toString n
  else if n < 10000 then "00" ++ toString n
  else if n < 100000 then "0" ++ toString n
  else toString n

/-- `date.isoformat()`. -/
def PyDate.isoformat (d : PyDate) : String :=
  pad4 d.year ++ "-" ++ pad2 d.month ++ "-" ++ pad2 d.day

/-- `time.isoformat()` for a naive time. -/
def PyTime.isoformat (t : PyTime) : String :=
  pad2 t.hour ++ ":" ++ pad2 t.minute ++ ":" ++ pad2 t.second ++
    (if t.microsecond = 0 then "" else "." ++ pad6 t.microsecond)

/-- `datetime.isoformat()` for a naive datetime. -/
def PyDatetime.isoformat (d : PyDatetime) : String :=
  pad4 d.year ++ "-" ++ pad2 d.month ++ "-" ++ pad2 d.day ++ "T" ++
    pad2 d.hour ++ ":" ++ pad2 d.minute ++ ":" ++ pad2 d.second ++
    (if d.microsecond = 0 then "" else "." ++ pad6 d.microsecond)

/-- Lower-case hexadecimal digit. -/
def hexDigit (n : Nat) : Char :=
  if n < 10 then Char.ofNat (48 + n) else Char.ofNat (87 + n)

/-- How `repr` escapes one byte inside a bytes literal quoted with
a single quote: backslash, quote, tab, newline, carriage return get a
two-character escape, other printable ASCII stands for itself, and
everything else becomes a hexadecimal escape. -/
def byteEscape (b : Nat) : List Char :=
  if b = 92 then [Char.ofNat 92, Char.ofNat 92]
  else if b = 39 then [Char.ofNat 92, Char.ofNat 39]
  else if b = 9 then [Char.ofNat 92, 't']
  else if b = 10 then [Char.ofNat 92, 'n']
  else if b = 13 then [Char.ofNat 92, 'r']
  else if 32 ≤ b ∧ b ≤ 126 then [Char.ofNat b]
  else [Char.ofNat 92, 'x', hexDigit (b / 16), hexDigit (b % 16)]

/-- `str(b)` for a bytes value `b` (Python renders the `repr`). -/
def pyBytesRepr (bs : List Nat) : String :=
  "b" ++ String.mk (Char.ofNat 39 :: bs.foldr (fun b acc => byteEscape b ++ acc) [Char.ofNat 39])

mutual

/-- A Python value as it can appear in fetched rows and response documents. -/
inductive PyVal where
  | vNone
  | vBool (b : Bool)
  | vInt (n : Int)
  | vFloat (q : ℚ)
  | vStr (s : String)
  | vDatetime (d : PyDatetime)
  | vDate (d : PyDate)
  | vTime (t : PyTime)
  | vUUID (text : String)
  | vBytes (bs : List Nat)
  | vDecimal (coeff : Int) (exp : Int)
  | vList (xs : PyList)
  | vTuple (xs : PyList)
  | vDict (kvs : PyDict)
  | vOther (tag : String)

/-- A Python list (or the contents of a tuple). -/
inductive PyList where
  | nil
  | cons (hd : PyVal) (tl : PyList)

/-- A Python dict with string keys, in insertion order. -/
inductive PyDict where
  | dnil
  | dcons (key : String) (val : PyVal) (tl : PyDict)

end

/-- Build a `PyList` from a Lean list. -/
def PyList.ofList : List PyVal → PyList
  | [] => .nil
  | x :: xs => .cons x (PyList.ofList xs)

/-- Build a `PyDict` from key/value pairs. -/
def PyDict.ofPairs : List (String × PyVal) → PyDict
  | [] => .dnil
  | (k, v) :: kvs => .dcons k v (PyDict.ofPairs kvs)

/-- `float(Decimal(...))`: the exact rational value coeff * 10^exp. -/
def decimalToFloat (coeff exp : Int) : ℚ :=
  (coeff : ℚ) * (10 : ℚ) ^ exp

mutual

/-- `convert_to_basic` from `simplify_json` (src/main.py lines 34-46):
recurses into dicts and lists; a datetime, date or time becomes its
`isoformat()` string; a UUID or bytes value becomes `str(o)`; a Decimal
becomes `float(o)`; everything else — including tuples, since
`isinstance(o, list)` is false for a tuple — is returned unchanged. -/
def convert_to_basic : PyVal → PyVal
  | .vDict kvs => .vDict (convertDict kvs)
  | .vList xs => .vList (convertList xs)
  | .vDatetime d => .vStr d.isoformat
  | .vDate d => .vStr d.isoformat
  | .vTime t => .vStr t.isoformat
  | .vUUID text => .vStr text
  | .vBytes bs => .vStr (pyBytesRepr bs)
  | .vDecimal coeff exp => .vFloat (decimalToFloat coeff exp)
  | v => v

/-- Elementwise `convert_to_basic` over a list comprehension. -/
def convertList : PyList → PyList
  | .nil => .nil
  | .cons x xs => .cons (convert_to_basic x) (convertList xs)

/-- `convert_to_basic` over a dict comprehension: keys pass through. -/
def convertDict : PyDict → PyDict
  | .dnil => .dnil
  | .dcons k v kvs => .dcons k (convert_to_basic v) (convertDict kvs)

end

/-- `simplify_json` (src/main.py lines 31-48): applies `convert_to_basic`. -/
def simplify_json (obj : PyVal) : PyVal :=
  convert_to_basic obj

/-- A scalar (anything that is not a dict, list or tuple). -/
def isScalar : PyVal → Bool
  | .vList _ => false
  | .vTuple _ => false
  | .vDict _ => false
  | _ => true

mutual

/-- Two values have the same tree shape: matching containers with
pointwise same-shaped contents (dicts also key for key), scalars
against scalars. -/
def sameShape : PyVal → PyVal → Bool
  | .vList xs, .vList ys => sameShapeList xs ys
  | .vTuple xs, .vTuple ys => sameShapeList xs ys
  | .vDict ds, .vDict es => sameShapeDict ds es
  | v, w => isScalar v && isScalar w

/-- Pointwise `sameShape` on lists of equal length. -/
def sameShapeList : PyList → PyList → Bool
  | .nil, .nil => true
  | .cons x xs, .cons y ys => sameShape x y && sameShapeList xs ys
  | _, _ => false

/-- Pointwise `sameShape` on dicts with equal keys in order. -/
def sameShapeDict : PyDict → PyDict → Bool
  | .dnil, .dnil => true
  | .dcons k v kvs, .dcons l w lws => (k = l : Bool) && sameShape v w && sameShapeDict kvs lws
  | _, _ => false

end

mutual

/-- No tuple anywhere in the tree. -/
def tupleFree : PyVal → Bool
  | .vList xs => tupleFreeList xs
  | .vTuple _ => false
  | .vDict kvs => tupleFreeDict kvs
  | _ => true

/-- `tupleFree` over a list. -/
def tupleFreeList : PyList → Bool
  | .nil => true
  | .cons x xs => tupleFree x && tupleFreeList xs

/-- `tupleFree` over a dict's values. -/
def tupleFreeDict : PyDict → Bool
  | .dnil => true
  | .dcons _ v kvs => tupleFree v && tupleFreeDict kvs

end

mutual

/-- No leaf of a backend-native convertible type (datetime, date, time,
UUID, bytes, Decimal) remains anywhere in the tree. -/
def noConvertibleLeaf : PyVal → Bool
  | .vDatetime _ => false
  | .vDate _ => false
  | .vTime _ => false
  | .vUUID _ => false
  | .vBytes _ => false
  | .vDecimal _ _ => false
  | .vList xs => noConvertibleLeafList xs
  | .vTuple xs => noConvertibleLeafList xs
  | .vDict kvs => noConvertibleLeafDict kvs
  | _ => true

/-- `noConvertibleLeaf` over a list. -/
def noConvertibleLeafList : PyList → Bool
  | .nil => true
  | .cons x xs => noConvertibleLeaf x && noConvertibleLeafList xs

/-- `noConvertibleLeaf` over a dict's values. -/
def noConvertibleLeafDict : PyDict → Bool
  | .dnil => true
  | .dcons _ v kvs => noConvertibleLeaf v && noConvertibleLeafDict kvs

end

mutual

/-- Some temporal leaf (datetime, date or time) occurs in the tree. -/
def hasTemporalLeaf : PyVal → Bool
  | .vDatetime _ => true
  | .vDate _ => true
  | .vTime _ => true
  | .vList xs => hasTemporalLeafList xs
  | .vTuple xs => hasTemporalLeafList xs
  | .vDict kvs => hasTemporalLeafDict kvs
  | _ => false

/-- `hasTemporalLeaf` over a list. -/
def hasTemporalLeafList : PyList → Bool
  | .nil => false
  | .cons x xs => hasTemporalLeaf x || hasTemporalLeafList xs

/-- `hasTemporalLeaf` over a dict's values. -/
def hasTemporalLeafDict : PyDict → Bool
  | .dnil => false
  | .dcons _ v kvs => hasTemporalLeaf v || hasTemporalLeafDict kvs

end

mutual

/-- What `json.dumps` accepts: None, bool, int, float, str, and lists,
tuples and dicts of such values.  A datetime, date, time, UUID, bytes,
Decimal or unrecognised value makes `json.dumps` raise `TypeError`. -/
def jsonEncodable : PyVal → Bool
  | .vNone => true
  | .vBool _ => true
  | .vInt _ => true
  | .vFloat _ => true
  | .vStr _ => true
  | .vList xs => jsonEncodableList xs
  | .vTuple xs => jsonEncodableList xs
  | .vDict kvs => jsonEncodableDict kvs
  | _ => false

/-- `jsonEncodable` over a list. -/
def jsonEncodableList : PyList → Bool
  | .nil => true
  | .cons x xs => jsonEncodable x && jsonEncodableList xs

/-- `jsonEncodable` over a dict's values. -/
def jsonEncodableDict : PyDict → Bool
  | .dnil => true
  | .dcons _ v kvs => jsonEncodable v && jsonEncodableDict kvs

end

/-- Python substring containment `pat in s` over character lists. -/
def hasSubstr (pat : List Char) : List Char → Bool
  | [] => pat.isEmpty
  | c :: rest => pat.isPrefixOf (c :: rest) || hasSubstr pat rest

/-- `sql_query.upper()` as a character list (ASCII case mapping; every
blocked keyword is ASCII). -/
def pyUpperChars (s : String) : List Char :=
  s.data.map Char.toUpper

/-- The eleven blocked keywords of `query_database` (src/main.py lines
62-74), each with its trailing space. -/
def BLOCKED_KEYWORDS : List String :=
  ["INSERT ", "UPDATE ", "DELETE ", "CREATE ", "DROP ", "ALTER ",
   "TRUNCATE ", "GRANT ", "REVOKE ", "COPY ", "MERGE "]

/-- The guard of src/main.py lines 75-76: some blocked keyword occurs in
the uppercased query text. -/
def isBlockedSql (sql_query : String) : Bool :=
  BLOCKED_KEYWORDS.any (fun keyword => hasSubstr keyword.data (pyUpperChars sql_query))

/-- psycopg2 exceptions seen by this program.  `operational`,
`programming` and `databaseOther` are the `DatabaseError` subclasses the
handlers distinguish; `interfaceErr` is `InterfaceError`, which is not a
`DatabaseError`.  The string is `str(e)`. -/
inductive DBExn where
  | operational (msg : String)
  | programming (msg : String)
  | databaseOther (msg : String)
  | interfaceErr (msg : String)
deriving DecidableEq, Repr

/-- A Python exception escaping to the serialisation boundary: a psycopg2
exception, or the `TypeError` that `json.dumps` raises on a value it
cannot encode. -/
inductive PyExn where
  | dbExn (e : DBExn)
  | typeError
deriving DecidableEq, Repr

/-- `json.dumps(doc, ...)`: returns the document when it is encodable
(the produced text determines the document injectively), raises
`TypeError` otherwise. -/
def json_dumps (doc : PyVal) : Except PyExn PyVal :=
  if jsonEncodable doc then .ok doc else .error .typeError

/-- The error envelope `{"error": msg}`. -/
def errEnvelope (msg : String) : PyVal :=
  .vDict (.dcons "error" (.vStr msg) .dnil)

/-- The empty-result message envelope `{"message": msg}`. -/
def msgEnvelope (msg : String) : PyVal :=
  .vDict (.dcons "message" (.vStr msg) .dnil)

/-- Does a top-level dict carry the given key? -/
def dictHasKey : PyDict → String → Bool
  | .dnil, _ => false
  | .dcons k _ kvs, key => (k = key : Bool) || dictHasKey kvs key

/-- A document shaped like an error envelope: a dict with an "error" key. -/
def isErrorShape : PyVal → Bool
  | .vDict kvs => dictHasKey kvs "error"
  | _ => false

/-- A document shaped like the informational message envelope: a dict
with a "message" key. -/
def isMessageShape : PyVal → Bool
  | .vDict kvs => dictHasKey kvs "message"
  | _ => false

/-- A backend effect performed by an operation. -/
inductive Effect where
  | connect
  | execute (sql : String)
deriving DecidableEq, Repr

/-- A fetched row: psycopg2 returns each row as a tuple of values. -/
def PyRow := List PyVal

/-- Embed fetched rows as the Python value `list of tuples` that
`fetchall()` returns. -/
def pyOfRows (rows : List PyRow) : PyVal :=
  .vList (PyList.ofList (rows.map (fun r => .vTuple (PyList.ofList r))))

/-- The except clauses of `query_database` (src/main.py lines 94-102):
`OperationalError`, `ProgrammingError` and `DatabaseError` are converted
to error envelopes; an `InterfaceError` matches no clause and
propagates. -/
def queryExcept : DBExn → Except PyExn PyVal
  | .operational msg => .ok (errEnvelope ("Database connection error: " ++ msg))
  | .programming msg => .ok (errEnvelope ("SQL query error: " ++ msg))
  | .databaseOther msg => .ok (errEnvelope ("Database error: " ++ msg))
  | .interfaceErr msg => .error (.dbExn (.interfaceErr msg))

/-- `query_database` (src/main.py lines 51-109).  `connectR` is the
outcome of `get_db_connection()`, `execR` the outcome of
`cursor.execute(sql_query)` followed by `cursor.fetchall()`.  Returns
the backend effects performed and the result: on a blocked keyword the
rejection envelope before any backend call; on a handled backend error
the corresponding envelope; on success
`json.dumps(simplify_json(rows), indent=2)`. -/
def query_database (sql_query : String) (connectR : Except DBExn Unit)
    (execR : Except DBExn (List PyRow)) : List Effect × Except PyExn PyVal :=
  if isBlockedSql sql_query then
    ([], .ok (errEnvelope "Write and DDL queries are not allowed. Only read queries are permitted."))
  else
    match connectR with
    | .error e => ([.connect], queryExcept e)
    | .ok _ =>
      match execR with
      | .error e => ([.connect, .execute sql_query], queryExcept e)
      | .ok rows => ([.connect, .execute sql_query], json_dumps (simplify_json (pyOfRows rows)))

/-- The except clauses of `get_database_schema` and
`get_database_schema_with_indexes` (src/main.py lines 151-159 and
273-281). -/
def schemaExcept : DBExn → Except PyExn PyVal
  | .operational msg => .ok (errEnvelope ("Database connection error: " ++ msg))
  | .programming msg => .ok (errEnvelope ("SQL error fetching schema: " ++ msg))
  | .databaseOther msg => .ok (errEnvelope ("Database error fetching schema: " ++ msg))
  | .interfaceErr msg => .error (.dbExn (.interfaceErr msg))

/-- `get_database_schema` (src/main.py lines 112-164): fetches the
column rows and returns `json.dumps(column_rows, indent=2)` — the rows
are not passed through `simplify_json`. -/
def get_database_schema (connectR : Except DBExn Unit)
    (execR : Except DBExn (List PyRow)) : Except PyExn PyVal :=
  match connectR with
  | .error e => schemaExcept e
  | .ok _ =>
    match execR with
    | .error e => schemaExcept e
    | .ok column_rows => json_dumps (pyOfRows column_rows)

/-- A row of the column catalog query of
`get_database_schema_with_indexes` (table_name, column_name, data_type,
is_nullable, column_default). -/
structure ColumnRow where
  table_name : String
  column_name : String
  data_type : String
  is_nullable : String
  column_default : PyVal

/-- A row of the index catalog query of
`get_database_schema_with_indexes` (table_name, index_name, column_name,
is_unique, is_primary). -/
structure IndexRow where
  table_name : String
  index_name : String
  column_name : String
  is_unique : Bool
  is_primary : Bool
deriving DecidableEq, Repr

/-- A table-scoped index row (index_name, column_name, is_unique,
is_primary), as fetched by `get_table_schema_with_indexes` and
`get_table_indexes`. -/
structure IndexRow4 where
  index_name : String
  column_name : String
  is_unique : Bool
  is_primary : Bool
deriving DecidableEq, Repr

/-- Drop the table name of a schema-level index row. -/
def IndexRow.toRow4 (r : IndexRow) : IndexRow4 :=
  ⟨r.index_name, r.column_name, r.is_unique, r.is_primary⟩

/-- The per-column record `{"column_name": ..., "data_type": ...,
"is_nullable": ..., "column_default": ...}` built on src/main.py lines
231-238. -/
structure ColumnRec where
  column_name : String
  data_type : String
  is_nullable : String
  column_default : PyVal

/-- An aggregated index record `{"index_name": ..., "columns": [...],
"is_unique": ..., "is_primary": ...}` (src/main.py lines 262-269). -/
structure IndexRec where
  index_name : String
  columns : List String
  is_unique : Bool
  is_primary : Bool
deriving DecidableEq, Repr

/-- The per-table entry `{"columns": [...], "indexes": [...]}`. -/
structure TableInfo where
  columns : List ColumnRec
  indexes : List IndexRec

/-- The schema map: a Python dict from table name to table entry, in
insertion order. -/
abbrev SchemaMap := List (String × TableInfo)

/-- The column record built from a catalog row. -/
def ColumnRow.toRec (r : ColumnRow) : ColumnRec :=
  ⟨r.column_name, r.data_type, r.is_nullable, r.column_default⟩

/-- One step of the index loop body of src/main.py lines 249-269 (and
430-453): find the first existing index with this row's name and append
the row's column name to it; if none exists, append a new index record
with a singleton column list. -/
def appendIdx : List IndexRec → IndexRow4 → List IndexRec
  | [], r => [⟨r.index_name, [r.column_name], r.is_unique, r.is_primary⟩]
  | i :: rest, r =>
    if i.index_name = r.index_name
    then { i with columns := i.columns ++ [r.column_name] } :: rest
    else i :: appendIdx rest r

/-- One step of the column loop of src/main.py lines 225-238: create the
table's entry on first sight, then append the column record to it. -/
def addColumnRow : SchemaMap → ColumnRow → SchemaMap
  | [], r => [(r.table_name, ⟨[r.toRec], []⟩)]
  | (t, info) :: rest, r =>
    if t = r.table_name
    then (t, { info with columns := info.columns ++ [r.toRec] }) :: rest
    else (t, info) :: addColumnRow rest r

/-- One step of the index loop of src/main.py lines 243-269: a row whose
table is absent from the map is skipped (`continue`); otherwise the
table's index list is updated by `appendIdx`. -/
def addIndexRow : SchemaMap → IndexRow → SchemaMap
  | [], _ => []
  | (t, info) :: rest, r =>
    if t = r.table_name
    then (t, { info with indexes := appendIdx info.indexes r.toRow4 }) :: rest
    else (t, info) :: addIndexRow rest r

/-- The aggregation of `get_database_schema_with_indexes` (src/main.py
lines 224-269): fold the column rows, then the index rows. -/
def buildSchema (column_rows : List ColumnRow) (index_rows : List IndexRow) : SchemaMap :=
  index_rows.foldl addIndexRow (column_rows.foldl addColumnRow [])

/-- Spec-shaped grouping of index rows: one record per index name in
first-appearance order, columns in row order, unique/primary flags from
the first row bearing the name. -/
def groupIndexes : List IndexRow4 → List IndexRec
  | [] => []
  | r :: rs =>
    ⟨r.index_name,
     r.column_name :: (rs.filter (fun s => s.index_name = r.index_name)).map (·.column_name),
     r.is_unique, r.is_primary⟩
    :: groupIndexes (rs.filter (fun s => ¬ s.index_name = r.index_name))
termination_by rs => rs.length
decreasing_by
  simp only [List.length_cons]
  exact Nat.lt_succ_of_le (List.length_filter_le _ _)

/-- Spec-shaped grouping of column rows: one table per name in
first-appearance order, its columns in row order, indexes empty. -/
def groupColumns : List ColumnRow → SchemaMap
  | [] => []
  | r :: rs =>
    (r.table_name,
     ⟨r.toRec :: (rs.filter (fun s => s.table_name = r.table_name)).map (·.toRec), []⟩)
    :: groupColumns (rs.filter (fun s => ¬ s.table_name = r.table_name))
termination_by rs => rs.length
decreasing_by
  simp only [List.length_cons]
  exact Nat.lt_succ_of_le (List.length_filter_le _ _)

/-- Embed an aggregated index record as its response dict. -/
def pyOfIndexRec (i : IndexRec) : PyVal :=
  .vDict (.dcons "index_name" (.vStr i.index_name)
    (.dcons "columns" (.vList (PyList.ofList (i.columns.map PyVal.vStr)))
      (.dcons "is_unique" (.vBool i.is_unique)
        (.dcons "is_primary" (.vBool i.is_primary) .dnil))))

/-- Embed a column record as its response dict. -/
def pyOfColumnRec (c : ColumnRec) : PyVal :=
  .vDict (.dcons "column_name" (.vStr c.column_name)
    (.dcons "data_type" (.vStr c.data_type)
      (.dcons "is_nullable" (.vStr c.is_nullable)
        (.dcons "column_default" c.column_default .dnil))))

/-- Embed a table entry as its response dict. -/
def pyOfTableInfo (info : TableInfo) : PyVal :=
  .vDict (.dcons "columns" (.vList (PyList.ofList (info.columns.map pyOfColumnRec)))
    (.dcons "indexes" (.vList (PyList.ofList (info.indexes.map pyOfIndexRec))) .dnil))

/-- Embed the schema map as its response dict. -/
def pyOfSchemaMap (m : SchemaMap) : PyVal :=
  .vDict (PyDict.ofPairs (m.map (fun p => (p.1, pyOfTableInfo p.2))))

/-- `get_database_schema_with_indexes` (src/main.py lines 167-286):
fetches column rows and index rows, folds them into the schema map, and
returns `json.dumps(schema, indent=2)`. -/
def get_database_schema_with_indexes (connectR : Except DBExn Unit)
    (colR : Except DBExn (List ColumnRow))
    (idxR : Except DBExn (List IndexRow)) : Except PyExn PyVal :=
  match connectR with
  | .error e => schemaExcept e
  | .ok _ =>
    match colR with
    | .error e => schemaExcept e
    | .ok column_rows =>
      match idxR with
      | .error e => schemaExcept e
      | .ok index_rows => json_dumps (pyOfSchemaMap (buildSchema column_rows index_rows))

/-- The except clauses of `get_table_schema` and
`get_table_schema_with_indexes` (src/main.py lines 338-352 and
457-471). -/
def tableExcept (table_name : String) : DBExn → Except PyExn PyVal
  | .operational msg => .ok (errEnvelope ("Database connection error: " ++ msg))
  | .programming msg =>
    .ok (errEnvelope ("SQL error fetching schema for table " ++ table_name ++ ": " ++ msg))
  | .databaseOther msg =>
    .ok (errEnvelope ("Database error fetching schema for table " ++ table_name ++ ": " ++ msg))
  | .interfaceErr msg => .error (.dbExn (.interfaceErr msg))

/-- `get_table_schema` (src/main.py lines 289-357): when the column scan
returns zero rows the table does not exist and the NotFound error
envelope is returned; otherwise `json.dumps(column_rows, indent=2)` —
again without `simplify_json`. -/
def get_table_schema (table_name : String) (connectR : Except DBExn Unit)
    (execR : Except DBExn (List PyRow)) : Except PyExn PyVal :=
  match connectR with
  | .error e => tableExcept table_name e
  | .ok _ =>
    match execR with
    | .error e => tableExcept table_name e
    | .ok [] => .ok (errEnvelope ("Table " ++ table_name ++ " does not exist."))
    | .ok column_rows => json_dumps (pyOfRows column_rows)

/-- `get_table_schema_with_indexes` (src/main.py lines 360-476): NotFound
on an empty column scan; otherwise folds the index rows with `appendIdx`
and returns the `{"columns": ..., "indexes": ...}` document. -/
def get_table_schema_with_indexes (table_name : String) (connectR : Except DBExn Unit)
    (colR : Except DBExn (List PyRow))
    (idxR : Except DBExn (List IndexRow4)) : Except PyExn PyVal :=
  match connectR with
  | .error e => tableExcept table_name e
  | .ok _ =>
    match colR with
    | .error e => tableExcept table_name e
    | .ok [] => .ok (errEnvelope ("Table " ++ table_name ++ " does not exist."))
    | .ok column_rows =>
      match idxR with
      | .error e => tableExcept table_name e
      | .ok index_rows =>
        json_dumps (.vDict (.dcons "columns" (pyOfRows column_rows)
          (.dcons "indexes"
            (.vList (PyList.ofList ((index_rows.foldl appendIdx []).map pyOfIndexRec))) .dnil)))

/-- The except clauses of `get_table_indexes` (src/main.py lines
524-538). -/
def indexesExcept (table_name : String) : DBExn → Except PyExn PyVal
  | .operational msg => .ok (errEnvelope ("Database connection error: " ++ msg))
  | .programming msg =>
    .ok (errEnvelope ("SQL error fetching indexes for table " ++ table_name ++ ": " ++ msg))
  | .databaseOther msg =>
    .ok (errEnvelope ("Database error fetching indexes for table " ++ table_name ++ ": " ++ msg))
  | .interfaceErr msg => .error (.dbExn (.interfaceErr msg))

/-- Embed the flat index rows as the list of 4-tuples that
`get_table_indexes` serialises. -/
def pyOfIndexRows (rows : List IndexRow4) : PyVal :=
  .vList (PyList.ofList (rows.map (fun r =>
    .vTuple (.cons (.vStr r.index_name) (.cons (.vStr r.column_name)
      (.cons (.vBool r.is_unique) (.cons (.vBool r.is_primary) .nil)))))))

/-- `get_table_indexes` (src/main.py lines 479-543): zero index rows
yield the informational `{"message": ...}` envelope; otherwise the flat
rows are serialised as fetched, with no aggregation. -/
def get_table_indexes (table_name : String) (connectR : Except DBExn Unit)
    (idxR : Except DBExn (List IndexRow4)) : Except PyExn PyVal :=
  match connectR with
  | .error e => indexesExcept table_name e
  | .ok _ =>
    match idxR with
    | .error e => indexesExcept table_name e
    | .ok [] => .ok (msgEnvelope ("No indexes found for table " ++ table_name ++ "."))
    | .ok index_rows => json_dumps (pyOfIndexRows index_rows)

/-- `ping_database` (src/main.py lines 596-622): a successful connect
yields the success envelope; an `OperationalError` or `InterfaceError`
yields the failure envelope; any other exception would propagate. -/
def ping_database (connectR : Except DBExn Unit) : Except PyExn PyVal :=
  match connectR with
  | .ok _ =>
    .ok (.vDict (.dcons "status" (.vStr "success")
      (.dcons "message" (.vStr "Database connection successful.") .dnil)))
  | .error (.operational msg) =>
    .ok (.vDict (.dcons "status" (.vStr "error")
      (.dcons "message" (.vStr ("Database connection failed: " ++ msg)) .dnil)))
  | .error (.interfaceErr msg) =>
    .ok (.vDict (.dcons "status" (.vStr "error")
      (.dcons "message" (.vStr ("Database interface error: " ++ msg)) .dnil)))
  | .error e => .error (.dbExn e)

mutual

/-- ValueNormalizer as the specification's words describe it (spec §4.4):
walks a mapping/sequence/scalar tree — sequences including tuples — and
converts temporal, unique-identifier, binary and decimal leaves.  Stated
only to compare the specified behaviour with `convert_to_basic`. -/
def specNormalize : PyVal → PyVal
  | .vDict kvs => .vDict (specNormalizeDict kvs)
  | .vList xs => .vList (specNormalizeList xs)
  | .vTuple xs => .vTuple (specNormalizeList xs)
  | .vDatetime d => .vStr d.isoformat
  | .vDate d => .vStr d.isoformat
  | .vTime t => .vStr t.isoformat
  | .vUUID text => .vStr text
  | .vBytes bs => .vStr (pyBytesRepr bs)
  | .vDecimal coeff exp => .vFloat (decimalToFloat coeff exp)
  | v => v

def specNormalizeList : PyList → PyList
  | .nil => .nil
  | .cons x xs => .cons (specNormalize x) (specNormalizeList xs)

def specNormalizeDict : PyDict → PyDict
  | .dnil => .dnil
  | .dcons k v kvs => .dcons k (specNormalize v) (specNormalizeDict kvs)

end

mutual

theorem convert_to_basic_idem : ∀ v, convert_to_basic (convert_to_basic v) = convert_to_basic v
  | .vDict kvs => by simp [convert_to_basic, convertDict_idem kvs]
  | .vList xs => by simp [convert_to_basic, convertList_idem xs]
  | .vDatetime _ => rfl
  | .vDate _ => rfl
  | .vTime _ => rfl
  | .vUUID _ => rfl
  | .vBytes _ => rfl
  | .vDecimal _ _ => rfl
  | .vNone => rfl
  | .vBool _ => rfl
  | .vInt _ => rfl
  | .vFloat _ => rfl
  | .vStr _ => rfl
  | .vTuple _ => rfl
  | .vOther _ => rfl

theorem convertList_idem : ∀ xs, convertList (convertList xs) = convertList xs
  | .nil => rfl
  | .cons x xs => by simp [convertList, convert_to_basic_idem x, convertList_idem xs]

theorem convertDict_idem : ∀ kvs, convertDict (convertDict kvs) = convertDict kvs
  | .dnil => rfl
  | .dcons k v kvs => by simp [convertDict, convert_to_basic_idem v, convertDict_idem kvs]

end

mutual

theorem sameShape_self : ∀ v, sameShape v v = true
  | .vList xs => sameShapeList_self xs
  | .vTuple xs => sameShapeList_self xs
  | .vDict kvs => sameShapeDict_self kvs
  | .vNone => rfl
  | .vBool _ => rfl
  | .vInt _ => rfl
  | .vFloat _ => rfl
  | .vStr _ => rfl
  | .vDatetime _ => rfl
  | .vDate _ => rfl
  | .vTime _ => rfl
  | .vUUID _ => rfl
  | .vBytes _ => rfl
  | .vDecimal _ _ => rfl
  | .vOther _ => rfl

theorem sameShapeList_self : ∀ xs, sameShapeList xs xs = true
  | .nil => rfl
  | .cons x xs => by simp [sameShapeList, sameShape_self x, sameShapeList_self xs]

theorem sameShapeDict_self : ∀ kvs, sameShapeDict kvs kvs = true
  | .dnil => rfl
  | .dcons k v kvs => by simp [sameShapeDict, sameShape_self v, sameShapeDict_self kvs]

end

mutual

theorem sameShape_convert : ∀ v, sameShape v (convert_to_basic v) = true
  | .vList xs => sameShapeList_convert xs
  | .vTuple xs => sameShapeList_self xs
  | .vDict kvs => sameShapeDict_convert kvs
  | .vNone => rfl
  | .vBool _ => rfl
  | .vInt _ => rfl
  | .vFloat _ => rfl
  | .vStr _ => rfl
  | .vDatetime _ => rfl
  | .vDate _ => rfl
  | .vTime _ => rfl
  | .vUUID _ => rfl
  | .vBytes _ => rfl
  | .vDecimal _ _ => rfl
  | .vOther _ => rfl

theorem sameShapeList_convert : ∀ xs, sameShapeList xs (convertList xs) = true
  | .nil => rfl
  | .cons x xs => by simp [convertList, sameShapeList, sameShape_convert x, sameShapeList_convert xs]

theorem sameShapeDict_convert : ∀ kvs, sameShapeDict kvs (convertDict kvs) = true
  | .dnil => rfl
  | .dcons k v kvs => by simp [convertDict, sameShapeDict, sameShape_convert v, sameShapeDict_convert kvs]

end

mutual

theorem noLeaf_convert : ∀ v, tupleFree v = true → noConvertibleLeaf (convert_to_basic v) = true
  | .vList xs, h => noLeafList_convert xs h
  | .vTuple _, h => by simp [tupleFree] at h
  | .vDict kvs, h => noLeafDict_convert kvs h
  | .vNone, _ => rfl
  | .vBool _, _ => rfl
  | .vInt _, _ => rfl
  | .vFloat _, _ => rfl
  | .vStr _, _ => rfl
  | .vDatetime _, _ => rfl
  | .vDate _, _ => rfl
  | .vTime _, _ => rfl
  | .vUUID _, _ => rfl
  | .vBytes _, _ => rfl
  | .vDecimal _ _, _ => rfl
  | .vOther _, _ => rfl

theorem noLeafList_convert : ∀ xs, tupleFreeList xs = true → noConvertibleLeafList (convertList xs) = true
  | .nil, _ => rfl
  | .cons x xs, h => by
    simp only [tupleFreeList, Bool.and_eq_true] at h
    simp [convertList, noConvertibleLeafList, noLeaf_convert x h.1, noLeafList_convert xs h.2]

theorem noLeafDict_convert : ∀ kvs, tupleFreeDict kvs = true → noConvertibleLeafDict (convertDict kvs) = true
  | .dnil, _ => rfl
  | .dcons k v kvs, h => by
    simp only [tupleFreeDict, Bool.and_eq_true] at h
    simp [convertDict, noConvertibleLeafDict, noLeaf_convert v h.1, noLeafDict_convert kvs h.2]

end

theorem convertList_ofTuples (rows : List PyRow) :
    convertList (PyList.ofList (rows.map (fun r => PyVal.vTuple (PyList.ofList r)))) =
      PyList.ofList (rows.map (fun r => PyVal.vTuple (PyList.ofList r))) := by
  induction rows with
  | nil => rfl
  | cons r rs ih => simp [PyList.ofList, convertList, convert_to_basic, ih]

/-- `simplify_json` does not change any fetched row list: the rows are
tuples and `convert_to_basic` does not enter a tuple. -/
theorem simplify_json_pyOfRows (rows : List PyRow) :
    simplify_json (pyOfRows rows) = pyOfRows rows := by
  simp [simplify_json, pyOfRows, convert_to_basic, convertList_ofTuples]

theorem jsonEncodable_pyOfIndexRows (rows : List IndexRow4) :
    jsonEncodable (pyOfIndexRows rows) = true := by
  induction rows with
  | nil => rfl
  | cons r rs ih =>
    simpa [pyOfIndexRows, PyList.ofList, jsonEncodable, jsonEncodableList] using ih

theorem foldl_appendIdx_cons (rs : List IndexRow4) :
    ∀ (i : IndexRec) (acc : List IndexRec),
    List.foldl appendIdx (i :: acc) rs =
      { i with columns := i.columns ++ (rs.filter (fun s => s.index_name = i.index_name)).map (·.column_name) }
        :: List.foldl appendIdx acc (rs.filter (fun s => ¬ s.index_name = i.index_name)) := by
  induction rs with
  | nil => intro i acc; simp [List.foldl]
  | cons r rs ih =>
    intro i acc
    by_cases h : i.index_name = r.index_name
    · simp only [List.foldl, appendIdx, if_pos h, List.filter_cons]
      rw [ih]
      simp [h, List.append_assoc]
    · simp only [List.foldl, appendIdx, if_neg h, List.filter_cons]
      have h' : ¬ r.index_name = i.index_name := fun e => h e.symm
      rw [ih]
      simp [h', decide_eq_true_eq]

theorem foldl_appendIdx_eq_group_aux :
    ∀ (n : Nat) (rows : List IndexRow4), rows.length ≤ n →
    List.foldl appendIdx [] rows = groupIndexes rows := by
  intro n
  induction n with
  | zero =>
    intro rows h
    match rows with
    | [] => simp [groupIndexes]
  | succ n ih =>
    intro rows h
    match rows with
    | [] => simp [groupIndexes]
    | r :: rs =>
      rw [groupIndexes]
      simp only [List.foldl, appendIdx]
      rw [foldl_appendIdx_cons]
      simp only [List.nil_append]
      congr 1
      exact ih _ (le_trans (List.length_filter_le _ _) (Nat.le_of_succ_le_succ h))

/-- The index loop of the source equals the spec-shaped grouping: one
record per index name in first-appearance order, its column list in row
order, flags from the first row bearing the name. -/
theorem foldl_appendIdx_eq_group (rows : List IndexRow4) :
    List.foldl appendIdx [] rows = groupIndexes rows :=
  foldl_appendIdx_eq_group_aux rows.length rows le_rfl

theorem foldl_addColumnRow_cons (rs : List ColumnRow) :
    ∀ (t : String) (info : TableInfo) (acc : SchemaMap),
    List.foldl addColumnRow ((t, info) :: acc) rs =
      (t, { info with columns := info.columns ++ (rs.filter (fun s => s.table_name = t)).map (·.toRec) })
        :: List.foldl addColumnRow acc (rs.filter (fun s => ¬ s.table_name = t)) := by
  induction rs with
  | nil => intro t info acc; simp [List.foldl]
  | cons r rs ih =>
    intro t info acc
    by_cases h : t = r.table_name
    · simp only [List.foldl, addColumnRow, if_pos h, List.filter_cons]
      rw [ih]
      simp [h, List.append_assoc]
    · simp only [List.foldl, addColumnRow, if_neg h, List.filter_cons]
      have h' : ¬ r.table_name = t := fun e => h e.symm
      rw [ih]
      simp [h', decide_eq_true_eq]

theorem foldl_addColumnRow_eq_group_aux :
    ∀ (n : Nat) (rows : List ColumnRow), rows.length ≤ n →
    List.foldl addColumnRow [] rows = groupColumns rows := by
  intro n
  induction n with
  | zero =>
    intro rows h
    match rows with
    | [] => simp [groupColumns]
  | succ n ih =>
    intro rows h
    match rows with
    | [] => simp [groupColumns]
    | r :: rs =>
      rw [groupColumns]
      simp only [List.foldl, addColumnRow]
      rw [foldl_addColumnRow_cons]
      simp only [List.nil_append]
      congr 1
      exact ih _ (le_trans (List.length_filter_le _ _) (Nat.le_of_succ_le_succ h))

/-- The column loop of the source equals the spec-shaped grouping: one
table per name in first-appearance order, its columns in row order. -/
theorem foldl_addColumnRow_eq_group (rows : List ColumnRow) :
    List.foldl addColumnRow [] rows = groupColumns rows :=
  foldl_addColumnRow_eq_group_aux rows.length rows le_rfl

/-- An index row whose table name is absent from the schema map is
skipped: the map is unchanged. -/
theorem addIndexRow_absent (schema : SchemaMap) (r : IndexRow)
    (h : ∀ p ∈ schema, p.1 ≠ r.table_name) : addIndexRow schema r = schema := by
  induction schema with
  | nil => rfl
  | cons p rest ih =>
    match p with
    | (t, info) =>
      have ht : t ≠ r.table_name := h (t, info) (List.mem_cons_self _ _)
      simp only [addIndexRow, if_neg ht]
      rw [ih (fun q hq => h q (List.mem_cons_of_mem _ hq))]

/-- C1: for every SQL string whose uppercased text contains one of the
eleven blocked keywords (each with its trailing space), `query_database`
returns the rejection error envelope and performs no backend
interaction: no connection is opened and no statement is executed. -/
theorem c1_blocked_query_rejected_no_backend (sql_query : String)
    (connectR : Except DBExn Unit) (execR : Except DBExn (List PyRow))
    (h : isBlockedSql sql_query = true) :
    query_database sql_query connectR execR =
      ([], .ok (errEnvelope "Write and DDL queries are not allowed. Only read queries are permitted.")) := by
  simp [query_database, h]

/-- Witness for C1 at the blocked query "DROP TABLE users", against a
backend whose every interaction would fail if it were reached. -/
theorem c1_blocked_query_rejected_no_backend_witness :
    isBlockedSql "DROP TABLE users" = true ∧
    query_database "DROP TABLE users" (Except.error (DBExn.operational "unreachable"))
        (Except.error (DBExn.operational "unreachable")) =
      ([], .ok (errEnvelope "Write and DDL queries are not allowed. Only read queries are permitted.")) :=
  ⟨by decide, c1_blocked_query_rejected_no_backend _ _ _ (by decide)⟩

/-- C2 (failing evaluation): a fetched row holding a datetime defeats the
claim — rows are tuples, `simplify_json` does not enter a tuple, so
`json.dumps` raises `TypeError` and the exception leaves `query_database`
uncaught; no JSON text is returned on this success path. -/
theorem c2_datetime_row_raises_uncaught_typeerror :
    query_database "SELECT created_at FROM events" (Except.ok ())
        (Except.ok [[PyVal.vDatetime ⟨2024, 1, 1, 12, 0, 0, 0⟩]]) =
      ([Effect.connect, Effect.execute "SELECT created_at FROM events"],
        Except.error PyExn.typeError) := by
  rfl

/-- C3 (counterexample): a temporal leaf inside a tuple is not replaced:
`simplify_json` returns the tuple unchanged and a temporal leaf remains
in its output, refuting the claim for sequence trees containing tuples. -/
theorem c3_tuple_datetime_passes_through :
    simplify_json (.vTuple (.cons (.vDatetime ⟨2024, 5, 17, 10, 30, 0, 0⟩) .nil)) =
      .vTuple (.cons (.vDatetime ⟨2024, 5, 17, 10, 30, 0, 0⟩) .nil) ∧
    hasTemporalLeaf (simplify_json (.vTuple (.cons (.vDatetime ⟨2024, 5, 17, 10, 30, 0, 0⟩) .nil))) = true :=
  ⟨rfl, rfl⟩

/-- C3 (amended): on trees built from mappings, list sequences and
scalars the walk is shape-preserving and total: every temporal leaf of a
tuple-free tree is replaced (no convertible leaf survives), a top-level
datetime/date/time becomes its ISO-8601 string, a UUID or bytes leaf its
text representation, a Decimal leaf a float, every other leaf passes
through unchanged — and a tuple is not a recognised sequence: it passes
through whole. -/
theorem c3_normalizer_shape_and_leaf_conversion :
    (∀ obj : PyVal, sameShape obj (simplify_json obj) = true) ∧
    (∀ obj : PyVal, tupleFree obj = true → noConvertibleLeaf (simplify_json obj) = true) ∧
    (∀ d : PyDatetime, simplify_json (.vDatetime d) = .vStr d.isoformat) ∧
    (∀ d : PyDate, simplify_json (.vDate d) = .vStr d.isoformat) ∧
    (∀ t : PyTime, simplify_json (.vTime t) = .vStr t.isoformat) ∧
    (∀ text : String, simplify_json (.vUUID text) = .vStr text) ∧
    (∀ bs : List Nat, simplify_json (.vBytes bs) = .vStr (pyBytesRepr bs)) ∧
    (∀ coeff exp : Int, simplify_json (.vDecimal coeff exp) = .vFloat (decimalToFloat coeff exp)) ∧
    (simplify_json .vNone = .vNone) ∧
    (∀ b : Bool, simplify_json (.vBool b) = .vBool b) ∧
    (∀ n : Int, simplify_json (.vInt n) = .vInt n) ∧
    (∀ q : ℚ, simplify_json (.vFloat q) = .vFloat q) ∧
    (∀ s : String, simplify_json (.vStr s) = .vStr s) ∧
    (∀ tag : String, simplify_json (.vOther tag) = .vOther tag) ∧
    (∀ xs : PyList, simplify_json (.vTuple xs) = .vTuple xs) :=
  ⟨fun obj => sameShape_convert obj, fun obj h => noLeaf_convert obj h,
   fun _ => rfl, fun _ => rfl, fun _ => rfl, fun _ => rfl, fun _ => rfl, fun _ _ => rfl,
   rfl, fun _ => rfl, fun _ => rfl, fun _ => rfl, fun _ => rfl, fun _ => rfl, fun _ => rfl⟩

/-- C3 amended witness: on a concrete tuple-free tree holding a datetime
inside a list inside a dict, normalization leaves no convertible leaf. -/
theorem c3_normalizer_shape_and_leaf_conversion_witness :
    noConvertibleLeaf (simplify_json (.vDict (.dcons "rows"
      (.vList (.cons (.vDatetime ⟨2024, 5, 17, 10, 30, 0, 0⟩) .nil)) .dnil))) = true :=
  c3_normalizer_shape_and_leaf_conversion.2.1
    (.vDict (.dcons "rows" (.vList (.cons (.vDatetime ⟨2024, 5, 17, 10, 30, 0, 0⟩) .nil)) .dnil)) rfl

/-- C4 (counterexample): `get_database_schema` does not pass its fetched
rows through the value normalizer: on a row containing a datetime it
raises an uncaught TypeError from `json.dumps`, although the document
normalized as the specification describes is JSON-encodable and would
have serialized. -/
theorem c4_schema_rows_not_normalized :
    get_database_schema (Except.ok ()) (Except.ok [[PyVal.vDatetime ⟨2024, 1, 1, 12, 0, 0, 0⟩]]) =
      Except.error PyExn.typeError ∧
    jsonEncodable (specNormalize (pyOfRows [[PyVal.vDatetime ⟨2024, 1, 1, 12, 0, 0, 0⟩]])) = true :=
  ⟨rfl, rfl⟩

/-- C4 (amended): only `query_database` invokes `simplify_json`; the
introspection operations serialize their fetched rows directly — and
`simplify_json` is the identity on every fetched row list (rows are
tuples, which it does not enter), so its invocation changes no
operation's output. -/
theorem c4_only_query_invokes_noop_normalizer :
    (∀ rows : List PyRow,
      get_database_schema (Except.ok ()) (Except.ok rows) = json_dumps (pyOfRows rows)) ∧
    (∀ (sql_query : String) (rows : List PyRow), isBlockedSql sql_query = false →
      (query_database sql_query (Except.ok ()) (Except.ok rows)).2 =
        json_dumps (simplify_json (pyOfRows rows))) ∧
    (∀ rows : List PyRow, simplify_json (pyOfRows rows) = pyOfRows rows) := by
  refine ⟨fun rows => rfl, fun sql_query rows h => ?_, simplify_json_pyOfRows⟩
  simp [query_database, h]

/-- C5: index rows sharing a name fold into a single record whose column
list is the row-order sequence of their column names and whose flags come
from the first row bearing the name (`List.foldl appendIdx` equals the
spec-shaped grouping); the example stream yields exactly two indexes on
t1: idx_a with columns [c1, c2] and idx_b with columns [c1]. -/
theorem c5_index_rows_folded_into_single_records :
    (∀ rows : List IndexRow4, List.foldl appendIdx [] rows = groupIndexes rows) ∧
    List.foldl addIndexRow [("t1", ⟨[], []⟩)]
        [⟨"t1", "idx_a", "c1", false, false⟩, ⟨"t1", "idx_a", "c2", false, false⟩,
         ⟨"t1", "idx_b", "c1", true, true⟩] =
      [("t1", ⟨[], [⟨"idx_a", ["c1", "c2"], false, false⟩, ⟨"idx_b", ["c1"], true, true⟩]⟩)] :=
  ⟨foldl_appendIdx_eq_group, rfl⟩

/-- C6: schema aggregation is order-preserving and total: the example
column rows yield t1 with columns [c1, c2] before t2; in general the
column fold equals the spec-shaped grouping (tables in first-appearance
order, columns in input order); and an index row whose table name is
absent from the map is skipped rather than failing. -/
theorem c6_schema_order_preserving_and_total :
    List.foldl addColumnRow []
        [⟨"t1", "c1", "integer", "NO", .vNone⟩, ⟨"t1", "c2", "text", "YES", .vNone⟩,
         ⟨"t2", "c1", "integer", "NO", .vNone⟩] =
      [("t1", ⟨[⟨"c1", "integer", "NO", .vNone⟩, ⟨"c2", "text", "YES", .vNone⟩], []⟩),
       ("t2", ⟨[⟨"c1", "integer", "NO", .vNone⟩], []⟩)] ∧
    (∀ rows : List ColumnRow, List.foldl addColumnRow [] rows = groupColumns rows) ∧
    (∀ (schema : SchemaMap) (r : IndexRow), (∀ p ∈ schema, p.1 ≠ r.table_name) →
      addIndexRow schema r = schema) :=
  ⟨rfl, foldl_addColumnRow_eq_group, addIndexRow_absent⟩

/-- C7: a table-scoped schema operation whose column scan returns zero
rows returns the NotFound error envelope — shaped as an error — rather
than an empty table result. -/
theorem c7_empty_column_scan_yields_notfound :
    (∀ (table_name : String) (idxR : Except DBExn (List IndexRow4)),
      get_table_schema table_name (Except.ok ()) (Except.ok []) =
        Except.ok (errEnvelope ("Table " ++ table_name ++ " does not exist.")) ∧
      get_table_schema_with_indexes table_name (Except.ok ()) (Except.ok []) idxR =
        Except.ok (errEnvelope ("Table " ++ table_name ++ " does not exist."))) ∧
    (∀ table_name : String,
      isErrorShape (errEnvelope ("Table " ++ table_name ++ " does not exist.")) = true) :=
  ⟨fun _ _ => ⟨rfl, rfl⟩, fun _ => rfl⟩

/-- C8: zero index rows make `get_table_indexes` return the informational
message envelope, whose shape (a "message" key, no "error" key) is
distinct from the error envelope shape. -/
theorem c8_no_indexes_informational_message (table_name : String) :
    get_table_indexes table_name (Except.ok ()) (Except.ok []) =
      Except.ok (msgEnvelope ("No indexes found for table " ++ table_name ++ ".")) ∧
    isMessageShape (msgEnvelope ("No indexes found for table " ++ table_name ++ ".")) = true ∧
    isErrorShape (msgEnvelope ("No indexes found for table " ++ table_name ++ ".")) = false :=
  ⟨rfl, rfl, rfl⟩

/-- C9: value normalization is idempotent; a timestamp normalizes to its
ISO-8601 string, which is itself a fixed point of the normalizer; the
decimal value 12.50 (coefficient 1250, exponent -2) normalizes to the
number 12.5. -/
theorem c9_normalization_idempotent :
    (∀ obj : PyVal, simplify_json (simplify_json obj) = simplify_json obj) ∧
    (∀ d : PyDatetime, simplify_json (.vDatetime d) = .vStr d.isoformat ∧
      simplify_json (.vStr d.isoformat) = .vStr d.isoformat) ∧
    simplify_json (.vDecimal 1250 (-2)) = .vFloat (12.5 : ℚ) := by
  refine ⟨fun obj => convert_to_basic_idem obj, fun d => ⟨rfl, rfl⟩, ?_⟩
  have h : decimalToFloat 1250 (-2) = (12.5 : ℚ) := by norm_num [decimalToFloat]
  simp [simplify_json, convert_to_basic, h]

/-- C10: `get_table_indexes` returns flat catalog rows without
aggregation: n rows of an n-column index appear as n separate 4-tuples,
each repeating the index name and flags — in contrast to the single
grouped record with an ordered column list that `appendIdx` builds for
the other index-returning operations. -/
theorem c10_table_indexes_returns_flat_rows :
    (∀ (table_name : String) (r : IndexRow4) (rs : List IndexRow4),
      get_table_indexes table_name (Except.ok ()) (Except.ok (r :: rs)) =
        Except.ok (pyOfIndexRows (r :: rs))) ∧
    get_table_indexes "t1" (Except.ok ())
        (Except.ok [⟨"idx_a", "c1", false, false⟩, ⟨"idx_a", "c2", false, false⟩]) =
      Except.ok (.vList (.cons
        (.vTuple (.cons (.vStr "idx_a") (.cons (.vStr "c1")
          (.cons (.vBool false) (.cons (.vBool false) .nil)))))
        (.cons (.vTuple (.cons (.vStr "idx_a") (.cons (.vStr "c2")
          (.cons (.vBool false) (.cons (.vBool false) .nil))))) .nil))) ∧
    List.foldl appendIdx [] [⟨"idx_a", "c1", false, false⟩, ⟨"idx_a", "c2", false, false⟩] =
      [⟨"idx_a", ["c1", "c2"], false, false⟩] := by
  refine ⟨fun table_name r rs => ?_, rfl, rfl⟩
  simp [get_table_indexes, json_dumps, jsonEncodable_pyOfIndexRows]
